import Mathlib

/-
Verification of the MemoryMaster round/session engine.

The engine lives in the `GameScreen` component: a state record (level, score,
lives, phase flags, timers) plus handler functions (`startLevel`,
`evaluateSelection`, `handleSuccessNext`, `handleFailureTryAgain`,
`togglePause`, `pauseGame`, `resumeGame`, `handleRetry`, the countdown
intervals and their deferred expiry callbacks, and the `highestLevel`
persistence effect).  Each handler is embedded as a function on the current
state (the sequential, single-timeline reading of the component: every
`setGameState` update and every direct read of a state field is taken
against the state at the moment the handler runs).  Timer intervals and the
100ms-deferred expiry callbacks become events of an explicit step relation,
with `memActive` / `ansActive` marking a running interval and
`pendingMem` / `pendingAns` marking an expiry callback that has been
scheduled but not yet run.
-/

namespace MemoryMaster

/-- The `currentPhase` UI state of GameScreen: 'memorizing' | 'recalling' | 'idle'. -/
inductive Phase where
  | memorizing
  | recalling
  | idle
deriving DecidableEq, Repr

/-- The `savedTimerState` value `{time, phase}` captured by `pauseGame`. -/
structure TimerSnapshot where
  time : Nat
  phase : Phase
deriving DecidableEq, Repr

/-- The GameScreen state: the `gameState` record together with the separate
`useState` pieces (`countdownTimer`, `currentPhase`, `savedTimerState`,
popup flags, `lastScore`), the interval refs (`memActive`, `ansActive`),
the scheduled-but-not-yet-run expiry callbacks (`pendingMem`, `pendingAns`),
and the persisted `localStorage` key (`storedHighest`). -/
structure GameState where
  level : Nat
  score : Nat
  lives : Int
  isPlaying : Bool
  isMemorizing : Bool
  isRecalling : Bool
  showingFeedback : Bool
  currentShape : Option (Finset Nat)
  playerSelections : Finset Nat
  accuracy : Rat
  isPaused : Bool
  gameOver : Bool
  highestLevel : Nat
  levelWhenDied : Nat
  countdownTimer : Nat
  currentPhase : Phase
  savedTimerState : TimerSnapshot
  memActive : Bool
  ansActive : Bool
  pendingMem : Bool
  pendingAns : Bool
  showSuccessPopup : Bool
  showFailurePopup : Bool
  levelPassed : Bool
  levelFailed : Bool
  lastScore : Nat
  storedHighest : Nat
deriving DecidableEq

/-- Modelled from the spec: `calculateAccuracy` is imported from
`src/lib/gameLogic`, which is not among the sources; §4.2 specifies
accuracy = `|target ∩ selections| / |target ∪ selections|`, a perfect match
yielding exactly `1.0`.  Cells are grid positions (`x * 8 + y`, the encoding
`handleCellClick` uses for `playerSelections`).  When both sets are empty the
quotient is 0/0; the contract `selections == target ⇒ 1.0` forces the value 1
there. -/
def calculateAccuracy (target selections : Finset Nat) : Rat :=
  if target ∪ selections = ∅ then 1
  else ((target ∩ selections).card : Rat) / ((target ∪ selections).card : Rat)

/-- `Math.floor(level * 100 * accuracy)` — the round score computed in
`evaluateSelection` on a pass. -/
def roundPoints (level : Nat) (accuracy : Rat) : Nat :=
  (Int.floor ((level : Rat) * 100 * accuracy)).toNat

/-- Modelled from the spec: the level→duration policies
(`getMemorizationTime`, `getRecallTime`, already divided down to whole
seconds as GameScreen does with `Math.floor(ms / 1000)`) live in
`src/lib/gameLogic`, which is not among the sources; §4.4 only requires them
to be monotonic non-increasing and bounded below by a minimum, so the model
takes them as parameters. -/
structure GameConfig where
  memTime : Nat → Nat
  recTime : Nat → Nat

/-- `startMemorizationTimer`: set the countdown and phase, (re)start the
memorize interval. -/
def startMemorizationTimer (duration : Nat) (s : GameState) : GameState :=
  { s with countdownTimer := duration, currentPhase := Phase.memorizing, memActive := true }

/-- `startAnswerTimer`: set the countdown and phase, (re)start the recall
interval. -/
def startAnswerTimer (duration : Nat) (s : GameState) : GameState :=
  { s with countdownTimer := duration, currentPhase := Phase.recalling, ansActive := true }

/-- `stopAllTimers`: clear both intervals (the anonymous 100ms expiry
timeouts are not stored in any ref, so they survive). -/
def stopAllTimers (s : GameState) : GameState :=
  { s with memActive := false, ansActive := false }

/-- `transitionToRecallPhase`: guarded on `isPausedRef`; flips the phase
flags and starts the recall countdown for the current level. -/
def transitionToRecallPhase (cfg : GameConfig) (s : GameState) : GameState :=
  if s.isPaused = true then s
  else
    startAnswerTimer (cfg.recTime s.level)
      { s with isMemorizing := false, isRecalling := true }

/-- `evaluateSelection`: compute the accuracy of the current selections
against the current shape, stop the timers, then branch on
`passed = (accuracy === 1.0)`: on a pass record the round score and show the
success popup; on a failure decrement `lives`, record `levelWhenDied` when
the new lives value is ≤ 0, and show the failure popup. -/
def evaluateSelection (s : GameState) : GameState :=
  let acc := calculateAccuracy (s.currentShape.getD ∅) s.playerSelections
  let s1 := stopAllTimers s
  if acc = 1 then
    { s1 with
      accuracy := acc
      isMemorizing := false
      isRecalling := false
      showingFeedback := true
      lastScore := roundPoints s1.level acc
      levelPassed := true
      levelFailed := false
      showSuccessPopup := true }
  else
    let newLives := s1.lives - 1
    { s1 with
      accuracy := acc
      isMemorizing := false
      isRecalling := false
      showingFeedback := true
      lives := newLives
      levelWhenDied := if newLives ≤ 0 then s1.level else s1.levelWhenDied
      levelFailed := true
      levelPassed := false
      showFailurePopup := true }

/-- `handleSuccessNext`: acknowledge the success feedback — close the popup,
advance the level by 1, add the recorded round score, clear
`showingFeedback` (the deferred `startLevel` then runs as the next-round
event). -/
def handleSuccessNext (s : GameState) : GameState :=
  { s with
    showSuccessPopup := false
    levelPassed := false
    levelFailed := false
    level := s.level + 1
    score := s.score + s.lastScore
    showingFeedback := false }

/-- `handleFailureTryAgain`: acknowledge the failure feedback — close the
popup; if `lives <= 0` end the session (`gameOver`), otherwise clear
`showingFeedback` and let the same level restart. -/
def handleFailureTryAgain (s : GameState) : GameState :=
  if s.lives ≤ 0 then
    { s with showFailurePopup := false, levelFailed := false, gameOver := true,
             isPlaying := false, showingFeedback := false }
  else
    { s with showFailurePopup := false, levelFailed := false, showingFeedback := false }

/-- `togglePause` (the pause button): flip `isPaused`; nothing else — the
intervals are not stopped and no timer snapshot is taken. -/
def togglePause (s : GameState) : GameState :=
  if s.gameOver = true then s else { s with isPaused := !s.isPaused }

/-- `pauseGame` (menu open): snapshot `{countdownTimer, currentPhase}`, stop
all timers, set `isPaused`. -/
def pauseGame (s : GameState) : GameState :=
  if s.gameOver = true then s
  else
    stopAllTimers
      { s with
        savedTimerState := ⟨s.countdownTimer, s.currentPhase⟩
        isPaused := true }

/-- `resumeGame` (menu close): clear `isPaused`, then (deferred 50ms) branch
on the snapshot — a positive remaining time restarts the matching timer with
exactly that time; a zero remaining time performs the deferred expiry
transition for the snapshotted phase; finally the snapshot is reset to the
neutral `{0, idle}`. -/
def resumeGame (cfg : GameConfig) (s : GameState) : GameState :=
  if s.gameOver = true then s
  else
    let s1 := { s with isPaused := false }
    let s2 :=
      if 0 < s1.savedTimerState.time then
        match s1.savedTimerState.phase with
        | Phase.memorizing => startMemorizationTimer s1.savedTimerState.time s1
        | Phase.recalling => startAnswerTimer s1.savedTimerState.time s1
        | Phase.idle => s1
      else
        match s1.savedTimerState.phase with
        | Phase.memorizing => transitionToRecallPhase cfg s1
        | Phase.recalling => evaluateSelection s1
        | Phase.idle => s1
    { s2 with savedTimerState := ⟨0, Phase.idle⟩ }

/-- `handleRetry` (GameOver screen): reset `lives = 3`, re-enter at
`levelWhenDied`, clear the terminal and feedback flags; the deferred
`startLevel` then restarts play. -/
def handleRetry (s : GameState) : GameState :=
  { s with
    lives := 3
    level := s.levelWhenDied
    gameOver := false
    isPlaying := true
    showingFeedback := false
    isMemorizing := false
    isRecalling := false }

/-- `startLevel`: guarded on `isPausedRef` and `gameOver`; set the round up
(shape, cleared selections, memorizing flags) and start the memorize
countdown for the current level.  The generated polyomino is a parameter
(the generator is random). -/
def startLevel (shape : Finset Nat) (cfg : GameConfig) (s : GameState) : GameState :=
  if (s.isPaused || s.gameOver) = true then s
  else
    startMemorizationTimer (cfg.memTime s.level)
      { s with
        isMemorizing := true
        isRecalling := false
        showingFeedback := false
        currentShape := some shape
        playerSelections := ∅ }

/-- `handleCellClick`: guarded on `isRecalling`, `isPausedRef` and
`gameOver`; toggles the clicked position (`x * 8 + y`) in
`playerSelections`. -/
def handleCellClick (pos : Nat) (s : GameState) : GameState :=
  if (!s.isRecalling || s.isPaused || s.gameOver) = true then s
  else
    { s with
      playerSelections :=
        if pos ∈ s.playerSelections then s.playerSelections.erase pos
        else insert pos s.playerSelections }

/-- A memorize-interval tick: decrement the countdown; on reaching 0 clear
the interval, drop `currentPhase` to idle and schedule the deferred
phase-transition callback (`pendingMem`). -/
def memTimerTick (s : GameState) : GameState :=
  if s.countdownTimer ≤ 1 then
    { s with countdownTimer := 0, memActive := false, currentPhase := Phase.idle,
             pendingMem := true }
  else
    { s with countdownTimer := s.countdownTimer - 1 }

/-- A recall-interval tick, symmetric to `memTimerTick`. -/
def ansTimerTick (s : GameState) : GameState :=
  if s.countdownTimer ≤ 1 then
    { s with countdownTimer := 0, ansActive := false, currentPhase := Phase.idle,
             pendingAns := true }
  else
    { s with countdownTimer := s.countdownTimer - 1 }

/-- The deferred memorize-expiry callback (`setTimeout(..., 100)` in
`startMemorizationTimer`): if not paused at the moment it runs, perform
`transitionToRecallPhase`; if paused, do nothing (the callback is consumed
either way). -/
def fireMemExpire (cfg : GameConfig) (s : GameState) : GameState :=
  if s.isPaused = true then { s with pendingMem := false }
  else transitionToRecallPhase cfg { s with pendingMem := false }

/-- The deferred recall-expiry callback (`setTimeout(..., 100)` in
`startAnswerTimer`): if not paused at the moment it runs, auto-submit via
`evaluateSelection`; if paused, do nothing. -/
def fireAnsExpire (s : GameState) : GameState :=
  if s.isPaused = true then { s with pendingAns := false }
  else evaluateSelection { s with pendingAns := false }

/-- The `highestLevel` effect: whenever `level` exceeds `highestLevel`,
update the state field and write the new value through to
`localStorage` (`storedHighest`). -/
def highestLevelEffect (s : GameState) : GameState :=
  if s.highestLevel < s.level then
    { s with highestLevel := s.level, storedHighest := s.level }
  else s

/-- The submit button: enabled only while recalling, unpaused and with a
nonempty selection; stops the timers and evaluates. -/
def submitAnswer (s : GameState) : GameState :=
  evaluateSelection (stopAllTimers s)

/-- The guard of the next-round effect: `isPlaying && !isPaused && !gameOver
&& !isMemorizing && !isRecalling && !showingFeedback && currentPhase ===
'idle'`. -/
def canAutoStart (s : GameState) : Bool :=
  s.isPlaying && !s.isPaused && !s.gameOver && !s.isMemorizing && !s.isRecalling
    && !s.showingFeedback && (s.currentPhase = Phase.idle)

/-- The component's state after mount: the initial `useState` record with
`highestLevel` loaded from the persisted value. -/
def initState (stored : Nat) : GameState :=
  { level := 1
    score := 0
    lives := 3
    isPlaying := true
    isMemorizing := false
    isRecalling := false
    showingFeedback := false
    currentShape := none
    playerSelections := ∅
    accuracy := 0
    isPaused := false
    gameOver := false
    highestLevel := stored
    levelWhenDied := 1
    countdownTimer := 0
    currentPhase := Phase.idle
    savedTimerState := ⟨0, Phase.idle⟩
    memActive := false
    ansActive := false
    pendingMem := false
    pendingAns := false
    showSuccessPopup := false
    showFailurePopup := false
    levelPassed := false
    levelFailed := false
    lastScore := 0
    storedHighest := stored }

/-- One step of the engine: a timer tick, a deferred expiry callback, or a
user/UI event, each enabled exactly when its code path can run. -/
inductive Step (cfg : GameConfig) : GameState → GameState → Prop where
  | autoStart (s : GameState) (shape : Finset Nat) (h : canAutoStart s = true) :
      Step cfg s (startLevel shape cfg s)
  | memTick (s : GameState) (h : s.memActive = true) :
      Step cfg s (memTimerTick s)
  | ansTick (s : GameState) (h : s.ansActive = true) :
      Step cfg s (ansTimerTick s)
  | memExpire (s : GameState) (h : s.pendingMem = true) :
      Step cfg s (fireMemExpire cfg s)
  | ansExpire (s : GameState) (h : s.pendingAns = true) :
      Step cfg s (fireAnsExpire s)
  | cellClick (s : GameState) (pos : Nat) :
      Step cfg s (handleCellClick pos s)
  | submit (s : GameState) (h : s.isRecalling = true ∧ s.isPaused = false ∧
        s.playerSelections ≠ ∅) :
      Step cfg s (submitAnswer s)
  | successNext (s : GameState) (h : s.showSuccessPopup = true) :
      Step cfg s (handleSuccessNext s)
  | failureTryAgain (s : GameState) (h : s.showFailurePopup = true) :
      Step cfg s (handleFailureTryAgain s)
  | togglePauseEv (s : GameState) :
      Step cfg s (togglePause s)
  | pauseGameEv (s : GameState) :
      Step cfg s (pauseGame s)
  | resumeGameEv (s : GameState) :
      Step cfg s (resumeGame cfg s)
  | retry (s : GameState) (h : s.gameOver = true) :
      Step cfg s (handleRetry s)
  | highestEffect (s : GameState) :
      Step cfg s (highestLevelEffect s)

/-- Reachability from a freshly mounted session (any persisted value). -/
inductive Reachable (cfg : GameConfig) : GameState → Prop where
  | init (stored : Nat) : Reachable cfg (initState stored)
  | step {s s' : GameState} : Reachable cfg s → Step cfg s s' → Reachable cfg s'

/-! ### Arithmetic facts about the scoring engine -/

theorem calculateAccuracy_nonneg (T S : Finset Nat) : 0 ≤ calculateAccuracy T S := by
  unfold calculateAccuracy
  split
  · norm_num
  · positivity

theorem calculateAccuracy_le_one (T S : Finset Nat) : calculateAccuracy T S ≤ 1 := by
  unfold calculateAccuracy
  split
  · exact le_refl 1
  · next h =>
    have hpos : 0 < (T ∪ S).card :=
      Finset.card_pos.mpr (Finset.nonempty_of_ne_empty h)
    have hposQ : (0 : Rat) < ((T ∪ S).card : Rat) := by exact_mod_cast hpos
    rw [div_le_one hposQ]
    exact_mod_cast Finset.card_le_card Finset.inter_subset_union

theorem calculateAccuracy_eq_one_iff (T S : Finset Nat) :
    calculateAccuracy T S = 1 ↔ S = T := by
  unfold calculateAccuracy
  by_cases h : T ∪ S = ∅
  · rw [if_pos h]
    obtain ⟨hT, hS⟩ := Finset.union_eq_empty.mp h
    subst hT; subst hS
    simp
  · rw [if_neg h]
    have hpos : 0 < (T ∪ S).card :=
      Finset.card_pos.mpr (Finset.nonempty_of_ne_empty h)
    have hne : ((T ∪ S).card : Rat) ≠ 0 := by
      exact_mod_cast hpos.ne'
    rw [div_eq_one_iff_eq hne]
    constructor
    · intro hc
      have hcard : (T ∩ S).card = (T ∪ S).card := by exact_mod_cast hc
      have hsub : T ∩ S = T ∪ S :=
        Finset.eq_of_subset_of_card_le Finset.inter_subset_union (le_of_eq hcard.symm)
      apply Finset.Subset.antisymm
      · intro x hx
        have hx2 : x ∈ T ∪ S := Finset.mem_union_right _ hx
        rw [← hsub] at hx2
        exact (Finset.mem_inter.mp hx2).1
      · intro x hx
        have hx2 : x ∈ T ∪ S := Finset.mem_union_left _ hx
        rw [← hsub] at hx2
        exact (Finset.mem_inter.mp hx2).2
    · intro hST
      subst hST
      rw [Finset.inter_self, Finset.union_self]

theorem calculateAccuracy_lt_one (T S : Finset Nat) (h : S ≠ T) :
    calculateAccuracy T S < 1 :=
  lt_of_le_of_ne (calculateAccuracy_le_one T S)
    (fun hc => h ((calculateAccuracy_eq_one_iff T S).mp hc))

theorem calculateAccuracy_self (T : Finset Nat) : calculateAccuracy T T = 1 :=
  (calculateAccuracy_eq_one_iff T T).mpr rfl

theorem roundPoints_one (l : Nat) : roundPoints l 1 = l * 100 := by
  unfold roundPoints
  rw [mul_one]
  have hcast : ((l : Rat) * 100) = ((l * 100 : Nat) : Rat) := by push_cast; ring
  rw [hcast, Int.floor_natCast]
  omega

/-! ### Branch equations for `evaluateSelection` -/

theorem evaluateSelection_pass (s : GameState)
    (h : calculateAccuracy (s.currentShape.getD ∅) s.playerSelections = 1) :
    evaluateSelection s =
      { s with
        memActive := false
        ansActive := false
        accuracy := calculateAccuracy (s.currentShape.getD ∅) s.playerSelections
        isMemorizing := false
        isRecalling := false
        showingFeedback := true
        lastScore := roundPoints s.level
          (calculateAccuracy (s.currentShape.getD ∅) s.playerSelections)
        levelPassed := true
        levelFailed := false
        showSuccessPopup := true } := by
  simp only [evaluateSelection, stopAllTimers]
  rw [if_pos h]

theorem evaluateSelection_fail (s : GameState)
    (h : calculateAccuracy (s.currentShape.getD ∅) s.playerSelections ≠ 1) :
    evaluateSelection s =
      { s with
        memActive := false
        ansActive := false
        accuracy := calculateAccuracy (s.currentShape.getD ∅) s.playerSelections
        isMemorizing := false
        isRecalling := false
        showingFeedback := true
        lives := s.lives - 1
        levelWhenDied := if s.lives - 1 ≤ 0 then s.level else s.levelWhenDied
        levelFailed := true
        levelPassed := false
        showFailurePopup := true } := by
  simp only [evaluateSelection, stopAllTimers]
  rw [if_neg h]

theorem handleFailureTryAgain_dead (s : GameState) (h : s.lives ≤ 0) :
    handleFailureTryAgain s =
      { s with showFailurePopup := false, levelFailed := false, gameOver := true,
               isPlaying := false, showingFeedback := false } := by
  unfold handleFailureTryAgain
  split
  · rfl
  · next hcond => exact absurd h hcond

theorem handleFailureTryAgain_alive (s : GameState) (h : 0 < s.lives) :
    handleFailureTryAgain s =
      { s with showFailurePopup := false, levelFailed := false,
               showingFeedback := false } := by
  unfold handleFailureTryAgain
  split
  · next hcond => exact absurd hcond (by omega)
  · rfl

/-! ### Claim theorems -/

/-- C1: a round evaluation passes (success feedback, `levelPassed`) iff the
computed accuracy is exactly 1; on a pass the recorded round score is
`floor(level * 100 * accuracy) = level * 100` and acknowledging the feedback
adds exactly that to the score; a failed evaluation leaves the score
unchanged (zero points), through the failure acknowledgement as well. -/
theorem claim_C1 (s : GameState) (T : Finset Nat) (hT : s.currentShape = some T) :
    ((evaluateSelection s).levelPassed = true ↔
        calculateAccuracy T s.playerSelections = 1) ∧
    (calculateAccuracy T s.playerSelections = 1 →
      (evaluateSelection s).showSuccessPopup = true ∧
      (evaluateSelection s).lastScore =
          roundPoints s.level (calculateAccuracy T s.playerSelections) ∧
      (evaluateSelection s).lastScore = s.level * 100 ∧
      (handleSuccessNext (evaluateSelection s)).score = s.score + s.level * 100) ∧
    (calculateAccuracy T s.playerSelections ≠ 1 →
      (evaluateSelection s).showFailurePopup = true ∧
      (evaluateSelection s).score = s.score ∧
      (evaluateSelection s).lastScore = s.lastScore ∧
      (handleFailureTryAgain (evaluateSelection s)).score = s.score) := by
  have hgd : s.currentShape.getD ∅ = T := by rw [hT]; rfl
  by_cases hacc : calculateAccuracy T s.playerSelections = 1
  · rw [evaluateSelection_pass s (by rw [hgd]; exact hacc)]
    refine ⟨by simp [hacc], fun _ => ?_, fun hne => absurd hacc hne⟩
    simp [hgd, hacc, handleSuccessNext, roundPoints_one]
  · rw [evaluateSelection_fail s (by rw [hgd]; exact hacc)]
    refine ⟨by simp [hacc], fun h1 => absurd h1 hacc, fun _ => ?_⟩
    refine ⟨rfl, rfl, rfl, ?_⟩
    simp only [handleFailureTryAgain]
    split <;> rfl

/-- A concrete mid-recall state with target `{0, 1}` and exactly matching
selections, used to instantiate C1. -/
def c1State : GameState :=
  { initState 1 with
    currentShape := some {0, 1}
    playerSelections := {0, 1}
    isRecalling := true }

/-- Witness for C1 at a concrete passing round (level 1, target `{0, 1}`,
selections `{0, 1}`). -/
theorem claim_C1_witness :
    ((evaluateSelection c1State).levelPassed = true ↔
        calculateAccuracy {0, 1} c1State.playerSelections = 1) ∧
    (calculateAccuracy {0, 1} c1State.playerSelections = 1 →
      (evaluateSelection c1State).showSuccessPopup = true ∧
      (evaluateSelection c1State).lastScore =
          roundPoints c1State.level
            (calculateAccuracy {0, 1} c1State.playerSelections) ∧
      (evaluateSelection c1State).lastScore = c1State.level * 100 ∧
      (handleSuccessNext (evaluateSelection c1State)).score =
          c1State.score + c1State.level * 100) ∧
    (calculateAccuracy {0, 1} c1State.playerSelections ≠ 1 →
      (evaluateSelection c1State).showFailurePopup = true ∧
      (evaluateSelection c1State).score = c1State.score ∧
      (evaluateSelection c1State).lastScore = c1State.lastScore ∧
      (handleFailureTryAgain (evaluateSelection c1State)).score = c1State.score) :=
  claim_C1 c1State {0, 1} rfl

/-- A concrete duration policy (1s memorize, 1s recall at every level),
monotonic non-increasing and bounded below as the spec requires. -/
def sampleConfig : GameConfig := ⟨fun _ => 1, fun _ => 1⟩

/-- C2: the accuracy recorded by a round evaluation is
`calculateAccuracy target selections`, and for all cell sets the accuracy
lies in `[0, 1]`, equals 1 exactly when the selections equal the target as
sets, and is strictly below 1 whenever the symmetric difference is
nonempty. -/
theorem claim_C2 (s : GameState) (T : Finset Nat) (hT : s.currentShape = some T) :
    (evaluateSelection s).accuracy = calculateAccuracy T s.playerSelections ∧
    ∀ T' S' : Finset Nat,
      (0 ≤ calculateAccuracy T' S' ∧ calculateAccuracy T' S' ≤ 1) ∧
      (calculateAccuracy T' S' = 1 ↔ S' = T') ∧
      ((symmDiff S' T').Nonempty → calculateAccuracy T' S' < 1) := by
  have hgd : s.currentShape.getD ∅ = T := by rw [hT]; rfl
  constructor
  · by_cases hacc : calculateAccuracy (s.currentShape.getD ∅) s.playerSelections = 1
    · rw [evaluateSelection_pass s hacc]
      show calculateAccuracy (s.currentShape.getD ∅) s.playerSelections = _
      rw [hgd]
    · rw [evaluateSelection_fail s hacc]
      show calculateAccuracy (s.currentShape.getD ∅) s.playerSelections = _
      rw [hgd]
  · intro T' S'
    refine ⟨⟨calculateAccuracy_nonneg T' S', calculateAccuracy_le_one T' S'⟩,
      calculateAccuracy_eq_one_iff T' S', fun hne => calculateAccuracy_lt_one T' S' ?_⟩
    intro heq
    rw [heq, symmDiff_self] at hne
    exact Finset.not_nonempty_empty hne

/-- A concrete mid-recall state with target `{2}` and selections `{2, 3}`
(one extra pick), used to instantiate C2. -/
def c2State : GameState :=
  { initState 1 with
    currentShape := some {2}
    playerSelections := {2, 3}
    isRecalling := true }

/-- Witness for C2 at a concrete round. -/
theorem claim_C2_witness :
    (evaluateSelection c2State).accuracy = calculateAccuracy {2} c2State.playerSelections ∧
    ∀ T' S' : Finset Nat,
      (0 ≤ calculateAccuracy T' S' ∧ calculateAccuracy T' S' ≤ 1) ∧
      (calculateAccuracy T' S' = 1 ↔ S' = T') ∧
      ((symmDiff S' T').Nonempty → calculateAccuracy T' S' < 1) :=
  claim_C2 c2State {2} rfl

/-- C3: a failed evaluation decrements `lives` by exactly 1 and leaves the
level alone; if the new lives value is 0, `levelWhenDied` is recorded as the
current level and acknowledging the failure makes the session GameOver;
otherwise `levelWhenDied` is untouched and acknowledging keeps the session
alive at the same level, whose next round then starts (same level,
memorizing). -/
theorem claim_C3 (cfg : GameConfig) (s : GameState) (T : Finset Nat)
    (hT : s.currentShape = some T)
    (hfail : calculateAccuracy T s.playerSelections ≠ 1)
    (hp : s.isPaused = false) (hg : s.gameOver = false) :
    (evaluateSelection s).lives = s.lives - 1 ∧
    (evaluateSelection s).level = s.level ∧
    ((evaluateSelection s).lives = 0 →
      (evaluateSelection s).levelWhenDied = s.level ∧
      (handleFailureTryAgain (evaluateSelection s)).gameOver = true) ∧
    (0 < (evaluateSelection s).lives →
      (evaluateSelection s).levelWhenDied = s.levelWhenDied ∧
      (handleFailureTryAgain (evaluateSelection s)).gameOver = false ∧
      (handleFailureTryAgain (evaluateSelection s)).level = s.level ∧
      (handleFailureTryAgain (evaluateSelection s)).lives = s.lives - 1 ∧
      ∀ shape : Finset Nat,
        (startLevel shape cfg (handleFailureTryAgain (evaluateSelection s))).level =
            s.level ∧
        (startLevel shape cfg (handleFailureTryAgain (evaluateSelection s))).isMemorizing =
            true) := by
  have hgd : s.currentShape.getD ∅ = T := by rw [hT]; rfl
  rw [evaluateSelection_fail s (by rw [hgd]; exact hfail)]
  refine ⟨rfl, rfl, fun h0 => ?_, fun hpos => ?_⟩
  · have h0' : s.lives - 1 = 0 := h0
    refine ⟨?_, ?_⟩
    · show (if s.lives - 1 ≤ 0 then s.level else s.levelWhenDied) = s.level
      rw [if_pos (by omega)]
    · rw [handleFailureTryAgain_dead _ (show s.lives - 1 ≤ 0 by omega)]
  · have hpos' : 0 < s.lives - 1 := hpos
    rw [handleFailureTryAgain_alive _ (show (0 : Int) < s.lives - 1 by omega)]
    refine ⟨?_, hg, rfl, rfl, fun shape => ?_⟩
    · show (if s.lives - 1 ≤ 0 then s.level else s.levelWhenDied) = s.levelWhenDied
      rw [if_neg (by omega)]
    · constructor
      · simp [startLevel, startMemorizationTimer, hp, hg]
      · simp [startLevel, startMemorizationTimer, hp, hg]

/-- A concrete mid-recall state with target `{0}` and wrong selection `{1}`,
lives 3, used to instantiate C3. -/
def c3State : GameState :=
  { initState 1 with
    currentShape := some {0}
    playerSelections := {1}
    isRecalling := true }

/-- Witness for C3 at a concrete failing round. -/
theorem claim_C3_witness :
    (evaluateSelection c3State).lives = c3State.lives - 1 ∧
    (evaluateSelection c3State).level = c3State.level ∧
    ((evaluateSelection c3State).lives = 0 →
      (evaluateSelection c3State).levelWhenDied = c3State.level ∧
      (handleFailureTryAgain (evaluateSelection c3State)).gameOver = true) ∧
    (0 < (evaluateSelection c3State).lives →
      (evaluateSelection c3State).levelWhenDied = c3State.levelWhenDied ∧
      (handleFailureTryAgain (evaluateSelection c3State)).gameOver = false ∧
      (handleFailureTryAgain (evaluateSelection c3State)).level = c3State.level ∧
      (handleFailureTryAgain (evaluateSelection c3State)).lives = c3State.lives - 1 ∧
      ∀ shape : Finset Nat,
        (startLevel shape sampleConfig
            (handleFailureTryAgain (evaluateSelection c3State))).level = c3State.level ∧
        (startLevel shape sampleConfig
            (handleFailureTryAgain (evaluateSelection c3State))).isMemorizing = true) :=
  claim_C3 sampleConfig c3State {0} rfl
    (fun hc => absurd ((calculateAccuracy_eq_one_iff {0} {1}).mp hc) (by decide))
    rfl rfl

/-- C4: a passing evaluation records the success feedback, and acknowledging
it adds exactly the computed round points (`level * 100`) to the score and
advances the level by exactly 1, which is the level of the next round that
then starts. -/
theorem claim_C4 (cfg : GameConfig) (s : GameState) (T : Finset Nat)
    (hT : s.currentShape = some T) (hS : s.playerSelections = T)
    (hp : s.isPaused = false) (hg : s.gameOver = false) :
    (evaluateSelection s).levelPassed = true ∧
    (evaluateSelection s).showSuccessPopup = true ∧
    (handleSuccessNext (evaluateSelection s)).score = s.score + s.level * 100 ∧
    (handleSuccessNext (evaluateSelection s)).level = s.level + 1 ∧
    (handleSuccessNext (evaluateSelection s)).showingFeedback = false ∧
    ∀ shape : Finset Nat,
      (startLevel shape cfg (handleSuccessNext (evaluateSelection s))).level =
          s.level + 1 ∧
      (startLevel shape cfg (handleSuccessNext (evaluateSelection s))).isMemorizing =
          true := by
  have hgd : s.currentShape.getD ∅ = T := by rw [hT]; rfl
  have hacc : calculateAccuracy (s.currentShape.getD ∅) s.playerSelections = 1 := by
    rw [hgd, hS]; exact calculateAccuracy_self T
  rw [evaluateSelection_pass s hacc]
  refine ⟨rfl, rfl, ?_, rfl, rfl, fun shape => ?_⟩
  · show s.score + roundPoints s.level (calculateAccuracy _ _) = _
    rw [hacc, roundPoints_one]
  · constructor
    · simp [startLevel, startMemorizationTimer, handleSuccessNext, hp, hg]
    · simp [startLevel, startMemorizationTimer, handleSuccessNext, hp, hg]

/-- A concrete mid-recall state with target `{4, 5}` matched exactly, used
to instantiate C4. -/
def c4State : GameState :=
  { initState 1 with
    currentShape := some {4, 5}
    playerSelections := {4, 5}
    isRecalling := true }

/-- Witness for C4 at a concrete passing round. -/
theorem claim_C4_witness :
    (evaluateSelection c4State).levelPassed = true ∧
    (evaluateSelection c4State).showSuccessPopup = true ∧
    (handleSuccessNext (evaluateSelection c4State)).score =
        c4State.score + c4State.level * 100 ∧
    (handleSuccessNext (evaluateSelection c4State)).level = c4State.level + 1 ∧
    (handleSuccessNext (evaluateSelection c4State)).showingFeedback = false ∧
    ∀ shape : Finset Nat,
      (startLevel shape sampleConfig (handleSuccessNext (evaluateSelection c4State))).level =
          c4State.level + 1 ∧
      (startLevel shape sampleConfig
          (handleSuccessNext (evaluateSelection c4State))).isMemorizing = true :=
  claim_C4 sampleConfig c4State {4, 5} rfl rfl rfl rfl

/-- In every reachable state the persisted `highestLevel` value and the
in-memory `highestLevel` field agree: only the write-through effect touches
either, and it writes both at once. -/
theorem storedHighest_eq_highestLevel {cfg : GameConfig} {s : GameState}
    (h : Reachable cfg s) : s.storedHighest = s.highestLevel := by
  induction h with
  | init stored => rfl
  | step hr hs ih =>
    cases hs <;>
      first
        | exact ih
        | (simp only [startLevel, memTimerTick, ansTimerTick, fireMemExpire,
             fireAnsExpire, submitAnswer, resumeGame, handleCellClick,
             handleFailureTryAgain, togglePause, pauseGame, highestLevelEffect,
             transitionToRecallPhase, evaluateSelection, startMemorizationTimer,
             startAnswerTimer, stopAllTimers]
           repeat' split
           all_goals (first | rfl | exact ih))

/-- Along any step out of a reachable state, the persisted highest-level
value never decreases. -/
theorem storedHighest_mono {cfg : GameConfig} {s s' : GameState}
    (hr : Reachable cfg s) (hs : Step cfg s s') :
    s.storedHighest ≤ s'.storedHighest := by
  have hinv : s.storedHighest = s.highestLevel := storedHighest_eq_highestLevel hr
  cases hs <;>
    first
      | exact le_refl _
      | (simp only [startLevel, memTimerTick, ansTimerTick, fireMemExpire,
           fireAnsExpire, submitAnswer, resumeGame, handleCellClick,
           handleFailureTryAgain, togglePause, pauseGame, highestLevelEffect,
           transitionToRecallPhase, evaluateSelection, startMemorizationTimer,
           startAnswerTimer, stopAllTimers]
         repeat' split
         all_goals (first | exact le_refl _ | (simp only []; omega)))

/-- C5: along any step out of a reachable state the persisted highest-level
value never decreases; the write-through effect, when `level` exceeds the
stored `highestLevel`, updates both the field and the persisted value to
`level` in one step; the effect is idempotent (running it again immediately
changes nothing, so one exceedance produces exactly one write); and a bare
countdown tick never writes the persisted value. -/
theorem claim_C5 (cfg : GameConfig) (s s' : GameState)
    (hr : Reachable cfg s) (hstep : Step cfg s s') :
    s.storedHighest ≤ s'.storedHighest ∧
    (s.highestLevel < s.level →
      (highestLevelEffect s).highestLevel = s.level ∧
      (highestLevelEffect s).storedHighest = s.level) ∧
    highestLevelEffect (highestLevelEffect s) = highestLevelEffect s ∧
    (memTimerTick s).storedHighest = s.storedHighest ∧
    (ansTimerTick s).storedHighest = s.storedHighest := by
  refine ⟨storedHighest_mono hr hstep, fun hlt => ?_, ?_, ?_, ?_⟩
  · unfold highestLevelEffect
    rw [if_pos hlt]
    exact ⟨rfl, rfl⟩
  · unfold highestLevelEffect
    split
    · next hc => simp
    · next hc => simp [hc]
  · unfold memTimerTick
    split <;> rfl
  · unfold ansTimerTick
    split <;> rfl

/-- Witness for C5: the freshly mounted session with persisted value 7,
taking the persistence-effect step. -/
theorem claim_C5_witness :
    (initState 7).storedHighest ≤ (highestLevelEffect (initState 7)).storedHighest ∧
    ((initState 7).highestLevel < (initState 7).level →
      (highestLevelEffect (initState 7)).highestLevel = (initState 7).level ∧
      (highestLevelEffect (initState 7)).storedHighest = (initState 7).level) ∧
    highestLevelEffect (highestLevelEffect (initState 7)) =
        highestLevelEffect (initState 7) ∧
    (memTimerTick (initState 7)).storedHighest = (initState 7).storedHighest ∧
    (ansTimerTick (initState 7)).storedHighest = (initState 7).storedHighest :=
  claim_C5 sampleConfig (initState 7) (highestLevelEffect (initState 7))
    (Reachable.init 7) (Step.highestEffect (initState 7))

theorem pauseGame_eq (s : GameState) (hg : s.gameOver = false) :
    pauseGame s =
      { s with
        savedTimerState := ⟨s.countdownTimer, s.currentPhase⟩
        isPaused := true
        memActive := false
        ansActive := false } := by
  unfold pauseGame stopAllTimers
  rw [if_neg (by simp [hg])]

/-- `pauseGame` immediately followed by `resumeGame` restores the countdown
and the phase exactly, provided an in-progress phase still has at least one
second remaining (which rules out the dead duration-zero corner of the
resume branch). -/
theorem resume_after_pause (cfg : GameConfig) (s : GameState)
    (hg : s.gameOver = false)
    (hc : 1 ≤ s.countdownTimer ∨ s.currentPhase = Phase.idle) :
    (resumeGame cfg (pauseGame s)).countdownTimer = s.countdownTimer ∧
    (resumeGame cfg (pauseGame s)).currentPhase = s.currentPhase := by
  rw [pauseGame_eq s hg]
  rcases hc with hcd | hph
  · have h0 : 0 < s.countdownTimer := hcd
    cases hph2 : s.currentPhase <;>
      simp [resumeGame, startMemorizationTimer, startAnswerTimer, hg, h0, hph2]
  · by_cases h0 : 0 < s.countdownTimer
    · simp [resumeGame, hg, h0, hph]
    · simp [resumeGame, hg, h0, hph]

/-- After `pauseGame`, no enabled event of the engine can change the
countdown: the intervals are stopped, the guarded user actions are blocked,
a deferred expiry callback firing while paused is a no-op, and resuming
restores the snapshotted remaining time. -/
theorem pause_freezes_countdown (cfg : GameConfig) (s : GameState)
    (hg : s.gameOver = false)
    (hc : 1 ≤ s.countdownTimer ∨ s.currentPhase = Phase.idle) :
    ∀ s', Step cfg (pauseGame s) s' → s'.countdownTimer = s.countdownTimer := by
  intro s' hstep
  rw [pauseGame_eq s hg] at hstep
  cases hstep with
  | autoStart shape hguard => simp [startLevel]
  | memTick hguard => simp at hguard
  | ansTick hguard => simp at hguard
  | memExpire hguard => simp [fireMemExpire]
  | ansExpire hguard => simp [fireAnsExpire]
  | cellClick pos => simp [handleCellClick]
  | submit hguard =>
      obtain ⟨h1, h2, h3⟩ := hguard
      simp at h2
  | successNext hguard => rfl
  | failureTryAgain hguard =>
      unfold handleFailureTryAgain
      split <;> rfl
  | togglePauseEv => simp [togglePause, hg]
  | pauseGameEv => simp [pauseGame, stopAllTimers, hg]
  | resumeGameEv =>
      rw [← pauseGame_eq s hg]
      exact (resume_after_pause cfg s hg hc).1
  | retry hguard => simp [hg] at hguard
  | highestEffect =>
      unfold highestLevelEffect
      split <;> rfl

/-- A reachable, non-GameOver state that is paused via the pause button
(`togglePause`): round started, memorize countdown running, then paused. -/
def c6Paused : GameState :=
  togglePause (startLevel {0} sampleConfig (initState 1))

/-- Counterexample to C6 as stated: in the non-GameOver paused state
`c6Paused` (paused via the pause button, `togglePause`, which does not stop
the intervals) the memorize interval is still enabled and its tick is a step
of the engine that decrements the countdown — the countdown advances while
paused. -/
theorem claim_C6_counterexample :
    c6Paused.gameOver = false ∧
    c6Paused.isPaused = true ∧
    Step sampleConfig c6Paused (memTimerTick c6Paused) ∧
    (memTimerTick c6Paused).countdownTimer ≠ c6Paused.countdownTimer :=
  ⟨rfl, rfl, Step.memTick c6Paused rfl, by decide⟩

/-- C6 amended: pausing with `pauseGame` (the menu path, which snapshots the
timer and stops the intervals) followed immediately by `resumeGame` leaves
the remaining countdown seconds and the phase unchanged, and while paused
via `pauseGame` no engine event can advance the countdown; the
`togglePause` pause button, however, only flips the flag and leaves the
intervals running, so the countdown does advance while paused that way
(see the counterexample).  The side condition `1 ≤ countdown ∨ phase = idle`
holds in any state whose in-progress countdown has not yet hit zero (ticking
to zero drops the phase to idle in the same step). -/
theorem claim_C6_amended (cfg : GameConfig) (s : GameState)
    (hg : s.gameOver = false)
    (hc : 1 ≤ s.countdownTimer ∨ s.currentPhase = Phase.idle) :
    (resumeGame cfg (pauseGame s)).countdownTimer = s.countdownTimer ∧
    (resumeGame cfg (pauseGame s)).currentPhase = s.currentPhase ∧
    (pauseGame s).memActive = false ∧
    (pauseGame s).ansActive = false ∧
    ∀ s', Step cfg (pauseGame s) s' → s'.countdownTimer = s.countdownTimer := by
  refine ⟨(resume_after_pause cfg s hg hc).1, (resume_after_pause cfg s hg hc).2,
    ?_, ?_, pause_freezes_countdown cfg s hg hc⟩
  · rw [pauseGame_eq s hg]
  · rw [pauseGame_eq s hg]

/-- The state used to instantiate the amended C6: a round just started
(memorizing, countdown running). -/
def c6State : GameState := startLevel {0} sampleConfig (initState 1)

/-- Witness for the amended C6 at the concrete state `c6State`. -/
theorem claim_C6_amended_witness :
    (resumeGame sampleConfig (pauseGame c6State)).countdownTimer =
        c6State.countdownTimer ∧
    (resumeGame sampleConfig (pauseGame c6State)).currentPhase =
        c6State.currentPhase ∧
    (pauseGame c6State).memActive = false ∧
    (pauseGame c6State).ansActive = false ∧
    ∀ s', Step sampleConfig (pauseGame c6State) s' →
        s'.countdownTimer = c6State.countdownTimer :=
  claim_C6_amended sampleConfig c6State rfl (Or.inl (by decide))

/-- C8: restarting a session from GameOver (`handleRetry`) resets `lives` to
exactly 3, sets `level` to `levelWhenDied`, clears the terminal and feedback
flags, and (when not paused) the deferred `startLevel` then resumes play at
that level. -/
theorem claim_C8 (cfg : GameConfig) (s : GameState) (hg : s.gameOver = true) :
    (handleRetry s).lives = 3 ∧
    (handleRetry s).level = s.levelWhenDied ∧
    (handleRetry s).gameOver = false ∧
    (handleRetry s).isPlaying = true ∧
    (handleRetry s).showingFeedback = false ∧
    (s.isPaused = false →
      ∀ shape : Finset Nat,
        (startLevel shape cfg (handleRetry s)).isMemorizing = true ∧
        (startLevel shape cfg (handleRetry s)).level = s.levelWhenDied ∧
        (startLevel shape cfg (handleRetry s)).memActive = true) := by
  refine ⟨rfl, rfl, rfl, rfl, rfl, fun hp shape => ?_⟩
  refine ⟨?_, ?_, ?_⟩ <;> simp [startLevel, startMemorizationTimer, handleRetry, hp]

/-- A concrete GameOver state (died at level 5 with some score), used to
instantiate C8 and C10. -/
def gameOverState : GameState :=
  { initState 1 with
    gameOver := true
    isPlaying := false
    lives := 0
    level := 5
    levelWhenDied := 5
    score := 700 }

/-- Witness for C8 at the concrete GameOver state. -/
theorem claim_C8_witness :
    (handleRetry gameOverState).lives = 3 ∧
    (handleRetry gameOverState).level = gameOverState.levelWhenDied ∧
    (handleRetry gameOverState).gameOver = false ∧
    (handleRetry gameOverState).isPlaying = true ∧
    (handleRetry gameOverState).showingFeedback = false ∧
    (gameOverState.isPaused = false →
      ∀ shape : Finset Nat,
        (startLevel shape sampleConfig (handleRetry gameOverState)).isMemorizing = true ∧
        (startLevel shape sampleConfig (handleRetry gameOverState)).level =
            gameOverState.levelWhenDied ∧
        (startLevel shape sampleConfig (handleRetry gameOverState)).memActive = true) :=
  claim_C8 sampleConfig gameOverState rfl

/-- C10: restarting from GameOver (`handleRetry`) leaves the cumulative
score unchanged — it is carried over, not reset — and the round that then
starts still carries it. -/
theorem claim_C10 (s : GameState) :
    (handleRetry s).score = s.score ∧
    ∀ (shape : Finset Nat) (cfg : GameConfig),
      (startLevel shape cfg (handleRetry s)).score = s.score := by
  refine ⟨rfl, fun shape cfg => ?_⟩
  unfold startLevel startMemorizationTimer
  split <;> rfl

/-- The reachable state in which the memorize countdown has just expired
while the game was paused with the pause button: round started (1s
memorize), `togglePause`, one tick (countdown hits 0, the deferred
transition callback is scheduled). -/
def c7Expired : GameState :=
  memTimerTick (togglePause (startLevel {0} sampleConfig (initState 1)))

/-- The state after the deferred expiry callback ran while paused (dropped
by the `isPausedRef` check) and the game was then unpaused with the pause
button. -/
def c7End : GameState :=
  togglePause (fireMemExpire sampleConfig c7Expired)

/-- C7 (the code at the failing input): the memorize countdown expires while
the game is paused via the pause button (`c7Expired` is reachable, paused,
countdown 0, expiry callback scheduled); the expiry transition is indeed not
performed while paused, but it is dropped rather than deferred — after the
callback fires (no-op) and the game is resumed, the session sits unpaused in
`isMemorizing` with no interval running, no pending callback and a neutral
timer snapshot, and no engine event can ever perform the
Memorizing → Recalling transition (every successor state still has
`isRecalling = false`): the deferred-expiry-on-resume of the claim never
happens. -/
theorem claim_C7 :
    Reachable sampleConfig c7End ∧
    c7Expired.isPaused = true ∧
    c7Expired.countdownTimer = 0 ∧
    c7Expired.pendingMem = true ∧
    (fireMemExpire sampleConfig c7Expired).isRecalling = false ∧
    c7End.isPaused = false ∧
    c7End.isMemorizing = true ∧
    c7End.isRecalling = false ∧
    c7End.memActive = false ∧
    c7End.ansActive = false ∧
    c7End.pendingMem = false ∧
    c7End.savedTimerState = ⟨0, Phase.idle⟩ ∧
    (∀ s', Step sampleConfig c7End s' →
      s'.isRecalling = false ∧ s'.isMemorizing = true) := by
  refine ⟨?_, rfl, rfl, rfl, rfl, rfl, rfl, rfl, rfl, rfl, rfl, rfl, ?_⟩
  · exact Reachable.step
      (Reachable.step
        (Reachable.step
          (Reachable.step (Reachable.init 1)
            (Step.autoStart (initState 1) {0} (by decide)))
          (Step.togglePauseEv _))
        (Step.memTick _ (by decide)))
      (Step.memExpire _ (by decide)) |>.step (Step.togglePauseEv _)
  · intro s' hstep
    cases hstep with
    | autoStart shape hguard => exact absurd hguard (by decide)
    | memTick hguard => exact absurd hguard (by decide)
    | ansTick hguard => exact absurd hguard (by decide)
    | memExpire hguard => exact absurd hguard (by decide)
    | ansExpire hguard => exact absurd hguard (by decide)
    | cellClick pos =>
        unfold handleCellClick
        rw [if_pos (by decide)]
        exact ⟨rfl, rfl⟩
    | submit hguard => exact absurd hguard.1 (by decide)
    | successNext hguard => exact absurd hguard (by decide)
    | failureTryAgain hguard => exact absurd hguard (by decide)
    | togglePauseEv => exact ⟨by decide, by decide⟩
    | pauseGameEv => exact ⟨by decide, by decide⟩
    | resumeGameEv => exact ⟨by decide, by decide⟩
    | retry hguard => exact absurd hguard (by decide)
    | highestEffect => exact ⟨by decide, by decide⟩

/-- End of round 1 just before the auto-submit callback runs: round started,
memorize countdown expired and transitioned, recall countdown expired with
no selections (the auto-submit callback is now pending). -/
def c9d1 : GameState :=
  ansTimerTick (fireMemExpire sampleConfig
    (memTimerTick (startLevel {0} sampleConfig (initState 1))))

/-- After round 1's auto-submit: empty selections against target `{0}` fail,
lives 3 → 2. -/
def c9e1 : GameState :=
  { c9d1 with
    pendingAns := false
    memActive := false
    ansActive := false
    accuracy := calculateAccuracy {0} ∅
    isMemorizing := false
    isRecalling := false
    showingFeedback := true
    lives := 2
    levelFailed := true
    levelPassed := false
    showFailurePopup := true }

/-- End of round 2 just before its auto-submit, after acknowledging round
1's failure. -/
def c9d2 : GameState :=
  ansTimerTick (fireMemExpire sampleConfig
    (memTimerTick (startLevel {0} sampleConfig (handleFailureTryAgain c9e1))))

/-- After round 2's auto-submit: lives 2 → 1. -/
def c9e2 : GameState :=
  { c9d2 with
    pendingAns := false
    memActive := false
    ansActive := false
    accuracy := calculateAccuracy {0} ∅
    isMemorizing := false
    isRecalling := false
    showingFeedback := true
    lives := 1
    levelFailed := true
    levelPassed := false
    showFailurePopup := true }

/-- Round 3 at the moment the recall countdown has just hit zero: the wrong
cell 1 was selected while recalling, the auto-submit callback is pending,
and `isRecalling` is still true (the expiry only dropped `currentPhase` to
idle), so the submit button is still available. -/
def c9d3 : GameState :=
  ansTimerTick (handleCellClick 1 (fireMemExpire sampleConfig
    (memTimerTick (startLevel {0} sampleConfig (handleFailureTryAgain c9e2)))))

/-- After the player's manual submit inside the auto-submit window:
`{1}` against `{0}` fails, lives 1 → 0, `levelWhenDied` recorded; the
pending auto-submit callback is NOT cancelled (`stopAllTimers` only clears
the interval refs). -/
def c9e3 : GameState :=
  { c9d3 with
    memActive := false
    ansActive := false
    accuracy := calculateAccuracy {0} {1}
    isMemorizing := false
    isRecalling := false
    showingFeedback := true
    lives := 0
    levelWhenDied := 1
    levelFailed := true
    levelPassed := false
    showFailurePopup := true }

/-- After the still-pending auto-submit callback fires and evaluates the
same round a second time: lives 0 → -1. -/
def c9e4 : GameState :=
  { c9e3 with
    pendingAns := false
    accuracy := calculateAccuracy {0} {1}
    lives := -1
    levelWhenDied := 1 }

/-- C9 (the code at the failing input): a reachable state with `lives = -1`.
Two rounds time out unanswered (lives 3 → 2 → 1); in the third round the
recall countdown expires — scheduling the deferred auto-submit — and the
player presses Submit inside that window (the button is still rendered since
`isRecalling` is still true).  The manual submit evaluates the round
(lives 1 → 0) but does not cancel the anonymous expiry callback, which then
runs `evaluateSelection` again unguarded: lives 0 → -1. -/
theorem claim_C9 : ∃ s, Reachable sampleConfig s ∧ s.lives = -1 := by
  have hne0 : calculateAccuracy {0} ∅ ≠ 1 := fun hc =>
    absurd ((calculateAccuracy_eq_one_iff {0} ∅).mp hc) (by decide)
  have hne1 : calculateAccuracy {0} {1} ≠ 1 := fun hc =>
    absurd ((calculateAccuracy_eq_one_iff {0} {1}).mp hc) (by decide)
  have he1 : fireAnsExpire c9d1 = c9e1 := by
    unfold fireAnsExpire
    rw [if_neg (by decide),
      evaluateSelection_fail { c9d1 with pendingAns := false } (by exact hne0)]
    rfl
  have he2 : fireAnsExpire c9d2 = c9e2 := by
    unfold fireAnsExpire
    rw [if_neg (by decide),
      evaluateSelection_fail { c9d2 with pendingAns := false } (by exact hne0)]
    rfl
  have he3 : submitAnswer c9d3 = c9e3 := by
    unfold submitAnswer
    rw [evaluateSelection_fail (stopAllTimers c9d3) (by exact hne1)]
    rfl
  have he4 : fireAnsExpire c9e3 = c9e4 := by
    unfold fireAnsExpire
    rw [if_neg (by decide),
      evaluateSelection_fail { c9e3 with pendingAns := false } (by exact hne1)]
    rfl
  have rd1 : Reachable sampleConfig c9d1 :=
    Reachable.step
      (Reachable.step
        (Reachable.step
          (Reachable.step (Reachable.init 1)
            (Step.autoStart (initState 1) {0} (by decide)))
          (Step.memTick _ (by decide)))
        (Step.memExpire _ (by decide)))
      (Step.ansTick _ (by decide))
  have re1 : Reachable sampleConfig c9e1 :=
    he1 ▸ Reachable.step rd1 (Step.ansExpire _ (by decide))
  have rd2 : Reachable sampleConfig c9d2 :=
    Reachable.step
      (Reachable.step
        (Reachable.step
          (Reachable.step
            (Reachable.step re1 (Step.failureTryAgain _ (by decide)))
            (Step.autoStart _ {0} (by decide)))
          (Step.memTick _ (by decide)))
        (Step.memExpire _ (by decide)))
      (Step.ansTick _ (by decide))
  have re2 : Reachable sampleConfig c9e2 :=
    he2 ▸ Reachable.step rd2 (Step.ansExpire _ (by decide))
  have rd3 : Reachable sampleConfig c9d3 :=
    Reachable.step
      (Reachable.step
        (Reachable.step
          (Reachable.step
            (Reachable.step
              (Reachable.step re2 (Step.failureTryAgain _ (by decide)))
              (Step.autoStart _ {0} (by decide)))
            (Step.memTick _ (by decide)))
          (Step.memExpire _ (by decide)))
        (Step.cellClick _ 1))
      (Step.ansTick _ (by decide))
  have re3 : Reachable sampleConfig c9e3 :=
    he3 ▸ Reachable.step rd3 (Step.submit _ ⟨by decide, by decide, by decide⟩)
  have re4 : Reachable sampleConfig c9e4 :=
    he4 ▸ Reachable.step re3 (Step.ansExpire _ (by decide))
  exact ⟨c9e4, re4, rfl⟩

end MemoryMaster
